import Mathlib

/-!
Verification of the NanoAi JNI bridge (`app/src/main/cpp/llama_jni.cpp`).

The llama.cpp engine is modelled as an oracle (`Engine` / `LoadEngine`)
supplying the results of every external call the bridge makes; the bridge
functions themselves (`loadModel`, `generate`, the batch builder, the
tokenize/detokenize helpers) are shallowly embedded as Lean functions that
additionally record a trace of the engine-visible events, in the order the
C++ code performs them.  C `float` parameters are modelled as `ℚ` (only
order comparisons are performed on them), C `int` as `ℤ`.
-/

namespace NanoAi

/-- Mirror of `struct GenerationParams` (llama_jni.cpp, lines 38-46),
with its C++ member initializers as Lean default field values. -/
structure GenerationParams where
  max_tokens : Int := 512
  temperature : ℚ := 7/10
  top_p : ℚ := 9/10
  top_k : Int := 40
  repeat_penalty : ℚ := 11/10
  n_threads : Int := 4
  n_ctx : Int := 2048
  deriving DecidableEq, Repr

/-- The default-initialized `g_params` global. -/
def stdDefaults : GenerationParams := {}

/-- The g_model / g_ctx handle pair plus the `g_params` global: `true`
means the corresponding pointer is non-null. -/
structure SessionState where
  model : Bool
  ctx : Bool
  params : GenerationParams
  deriving DecidableEq, Repr

/-- Oracle for the two engine calls `loadModel` makes:
`llama_load_model_from_file` succeeding and
`llama_new_context_with_model` succeeding. -/
structure LoadEngine where
  loadOk : Bool
  ctxOk : Bool
  deriving DecidableEq, Repr

/-- Shallow embedding of `Java_com_nanoai_llm_LlamaBridge_loadModel`
(llama_jni.cpp, lines 128-198).  Returns the JNI boolean result together
with the session state on exit.  The memory query and backend init are
purely informational and carry no state here. -/
def loadModel (eng : LoadEngine) (st : SessionState) (nCtx nThreads : Int) :
    Bool × SessionState :=
  -- lines 139-146: unload any existing context and model first
  let p0 := st.params
  if eng.loadOk = false then
    -- line 169-172: llama_load_model_from_file returned null
    (false, ⟨false, false, p0⟩)
  else
    -- lines 175-179: effective context parameters
    let effCtx := if nCtx > 0 then nCtx else p0.n_ctx
    let effThreads := if nThreads > 0 then nThreads else p0.n_threads
    if eng.ctxOk = false then
      -- lines 183-188: context creation failed, free the fresh model too
      (false, ⟨false, false, p0⟩)
    else
      -- lines 191-197: record effective params, report success
      (true, ⟨true, true, { p0 with n_ctx := effCtx, n_threads := effThreads }⟩)

/-- One entry of a `llama_batch`: token id, absolute position, and the
per-token output-scores (`logits`) flag. -/
structure BatchEntry where
  token : Int
  pos : Int
  logits : Bool
  deriving DecidableEq, Repr

/-- The loop body of the prefill batch construction (llama_jni.cpp,
lines 276-283): entry for source index `i` gets position `i` and a
scores flag set exactly when `i` is the last index `n - 1`. -/
def prefillGo (n : Nat) : Nat → List Int → List BatchEntry
  | _, [] => []
  | i, t :: ts => ⟨t, (i : Int), decide (i = n - 1)⟩ :: prefillGo n (i + 1) ts

/-- The full prompt batch submitted by `generate` (lines 274-283) and
`getEmbedding` (lines 406-415). -/
def buildPrefillBatch (tokens : List Int) : List BatchEntry :=
  prefillGo tokens.length 0 tokens

/-- Engine-visible events performed by `generate`, in program order.
The two atomic flag writes are included so that their ordering relative
to engine work is part of the trace. -/
inductive Event where
  | setGenerating (b : Bool)
  | setStopRequested (b : Bool)
  | tokenizeCall
  | kvCacheClear
  | decode (batch : List BatchEntry) (ok : Bool)
  | getLogits
  | sampleTopK (k : Int)
  | sampleTopP (p : ℚ)
  | sampleTemp (t : ℚ)
  | sampleDraw (tok : Int)
  deriving DecidableEq, Repr

/-- Oracle for every engine call `generate` makes.  `tokenizeRes` is the
token list produced by the `tokenize` helper (including its internal
resize-and-retry); `decodeOk k` is the success of the k-th `llama_decode`
call of this `generate` invocation (the prefill is call 0, the decode of
generation step i is call i+1); `draw i` is the token produced by
`llama_sample_token` at loop iteration i; `stopSeen i` is the value the
loop condition reads from `g_stop_requested` at iteration i; `piece t`
is the surface text `llama_token_to_piece` yields for token t (empty for
a non-positive byte count). -/
structure Engine where
  tokenizeRes : String → Bool → List Int
  nCtx : Int
  nVocab : Int
  eosToken : Int
  decodeOk : Nat → Bool
  draw : Nat → Int
  stopSeen : Nat → Bool
  piece : Int → String

/-- Shallow embedding of the `detokenize` helper (llama_jni.cpp, lines
108-120): concatenate each token's surface form. -/
def detokenize (eng : Engine) (tokens : List Int) : String :=
  tokens.foldl (fun acc t => acc ++ eng.piece t) ""

/-- Why the generation loop of `generate` stopped. -/
inductive StopReason where
  | maxTokens
  | stopRequested
  | eos
  | decodeFail
  deriving DecidableEq, Repr

/-- Result of the generation loop: tokens pushed into `generated`, the
reason the loop exited, the events it performed, and the final `n_cur`. -/
structure LoopOut where
  generated : List Int
  reason : StopReason
  trace : List Event
  nCur : Int
  deriving Repr

/-- Shallow embedding of the generation loop (llama_jni.cpp, lines
306-349): `for (int i = 0; i < max_gen && !g_stop_requested; i++)`.
`fuel` is the number of loop-counter values left (`max_gen - i`), `i`
the loop counter, `acc` the `generated` vector so far.  Each iteration
reads the logits, samples top-k, top-p, temperature, then draws; EOS
breaks before the token is pushed; otherwise the token is pushed and a
one-token batch at position `n_cur` with the scores flag set is decoded,
a failure breaking out of the loop. -/
def genLoop (eng : Engine) (topK : Int) (topP temp : ℚ) :
    Nat → Nat → Int → List Int → LoopOut
  | 0, _, nCur, acc => ⟨acc, .maxTokens, [], nCur⟩
  | fuel + 1, i, nCur, acc =>
    if eng.stopSeen i then ⟨acc, .stopRequested, [], nCur⟩
    else
      let tok := eng.draw i
      let pre : List Event :=
        [.getLogits, .sampleTopK topK, .sampleTopP topP, .sampleTemp temp,
         .sampleDraw tok]
      if tok = eng.eosToken then ⟨acc, .eos, pre, nCur⟩
      else
        let batch : List BatchEntry := [⟨tok, nCur, true⟩]
        if eng.decodeOk (i + 1) then
          let rest := genLoop eng topK topP temp fuel (i + 1) (nCur + 1) (acc ++ [tok])
          ⟨rest.generated, rest.reason,
           pre ++ [.decode batch true] ++ rest.trace, rest.nCur⟩
        else
          ⟨acc ++ [tok], .decodeFail, pre ++ [.decode batch false], nCur⟩

/-- The per-call effective parameters computed at llama_jni.cpp lines
295-299: `max_gen`, `temp`, `top_p_val`, `top_k_val`, `rep_pen`. -/
structure ResolvedParams where
  max_gen : Int
  temp : ℚ
  top_p_val : ℚ
  top_k_val : Int
  rep_pen : ℚ
  deriving DecidableEq, Repr

/-- Shallow embedding of the parameter resolution (lines 295-299).
Note the asymmetry present in the source: `temperature` is compared with
`>= 0`, every other field with `> 0`. -/
def resolveParams (d : GenerationParams) (maxTokens : Int)
    (temperature topP : ℚ) (topK : Int) (repeatPenalty : ℚ) : ResolvedParams :=
  { max_gen := if maxTokens > 0 then maxTokens else d.max_tokens
    temp := if temperature ≥ 0 then temperature else d.temperature
    top_p_val := if topP > 0 then topP else d.top_p
    top_k_val := if topK > 0 then topK else d.top_k
    rep_pen := if repeatPenalty > 0 then repeatPenalty else d.repeat_penalty }

/-- What `generate` hands back: the returned string, the event trace, the
value of `g_is_generating` on return, the `generated` token vector, and
the loop's stop reason (`none` on the paths that never reach the loop). -/
structure GenOut where
  text : String
  trace : List Event
  isGenerating : Bool
  generated : List Int
  reason : Option StopReason

/-- The successful-prefill tail of `generate` (llama_jni.cpp, lines
292-357): resolve the effective parameters, run the generation loop,
clear `g_is_generating`, detokenize the generated tokens. -/
def generateMain (eng : Engine) (defaults : GenerationParams)
    (maxTokens : Int) (temperature topP : ℚ) (topK : Int)
    (repeatPenalty : ℚ) (tokens : List Int) : GenOut :=
  let r := resolveParams defaults maxTokens temperature topP topK repeatPenalty
  let out := genLoop eng r.top_k_val r.top_p_val r.temp
    r.max_gen.toNat 0 (tokens.length : Int) []
  ⟨detokenize eng out.generated,
   .setGenerating true :: .setStopRequested false :: .tokenizeCall ::
     .kvCacheClear :: .decode (buildPrefillBatch tokens) true ::
     (out.trace ++ [.setGenerating false]),
   false, out.generated, some out.reason⟩

/-- Shallow embedding of `Java_com_nanoai_llm_LlamaBridge_generate`
(llama_jni.cpp, lines 232-358).  `modelLoaded` / `ctxLoaded` model the
null-checks of `g_model` / `g_ctx`; `isGen0` is the value of
`g_is_generating` on entry (left untouched on the not-loaded path).
The local `tokens` vector of the C++ is written out as the pure
call `eng.tokenizeRes prompt true` at each of its uses. -/
def generate (eng : Engine) (modelLoaded ctxLoaded : Bool)
    (defaults : GenerationParams) (prompt : String) (maxTokens : Int)
    (temperature topP : ℚ) (topK : Int) (repeatPenalty : ℚ)
    (isGen0 : Bool) : GenOut :=
  if (modelLoaded && ctxLoaded) = false then
    -- lines 245-248: model not loaded
    ⟨"[Error: Model not loaded]", [], isGen0, [], none⟩
  else if eng.tokenizeRes prompt true = [] then
    -- lines 250-251 set the flags, line 257 tokenizes, lines 258-261 bail
    ⟨"[Error: Failed to tokenize]",
     [.setGenerating true, .setStopRequested false, .tokenizeCall,
      .setGenerating false], false, [], none⟩
  else if ((eng.tokenizeRes prompt true).length : Int) > eng.nCtx - 4 then
    -- lines 263-268
    ⟨"[Error: Prompt too long]",
     [.setGenerating true, .setStopRequested false, .tokenizeCall,
      .setGenerating false], false, [], none⟩
  else if eng.decodeOk 0 = false then
    -- lines 271-290: clear KV cache, submit the prompt batch, fail
    ⟨"[Error: Decode failed]",
     [.setGenerating true, .setStopRequested false, .tokenizeCall,
      .kvCacheClear, .decode (buildPrefillBatch (eng.tokenizeRes prompt true)) false,
      .setGenerating false], false, [], none⟩
  else
    generateMain eng defaults maxTokens temperature topP topK repeatPenalty
      (eng.tokenizeRes prompt true)

/-- Events of the four-stage sampling pipeline. -/
def isSamplingEvent : Event → Bool
  | .sampleTopK _ => true
  | .sampleTopP _ => true
  | .sampleTemp _ => true
  | .sampleDraw _ => true
  | _ => false

/-- A `llama_decode` submission. -/
def isDecodeEvent : Event → Bool
  | .decode _ _ => true
  | _ => false

/-- Events that mutate the decoding context: clearing the KV cache or
submitting a batch. -/
def touchesContext : Event → Bool
  | .kvCacheClear => true
  | .decode _ _ => true
  | _ => false

/-- The sampling events of a trace consist of complete iterations, each
applying top-k, then top-p, then temperature, then the draw, in that
order. -/
inductive PipelineOrdered (k : Int) (p t : ℚ) : List Event → Prop
  | nil : PipelineOrdered k p t []
  | cons (tok : Int) (rest : List Event) : PipelineOrdered k p t rest →
      PipelineOrdered k p t
        (.sampleTopK k :: .sampleTopP p :: .sampleTemp t ::
         .sampleDraw tok :: rest)

/-! ### Branch lemmas for `generate` -/

/-- With the model or context handle null, `generate` returns the
not-loaded error immediately, with an empty event trace. -/
theorem generate_eq_not_loaded (eng : Engine) (ml cl : Bool)
    (d : GenerationParams) (prompt : String) (mt : Int) (t tp : ℚ)
    (tk : Int) (rp : ℚ) (ig0 : Bool) (h : (ml && cl) = false) :
    generate eng ml cl d prompt mt t tp tk rp ig0 =
      ⟨"[Error: Model not loaded]", [], ig0, [], none⟩ := by
  unfold generate
  rw [if_pos h]

/-- With the session loaded and tokenization empty, `generate` returns
the tokenize error. -/
theorem generate_eq_tok_fail (eng : Engine) (ml cl : Bool)
    (d : GenerationParams) (prompt : String) (mt : Int) (t tp : ℚ)
    (tk : Int) (rp : ℚ) (ig0 : Bool) (hload : (ml && cl) = true)
    (h : eng.tokenizeRes prompt true = []) :
    generate eng ml cl d prompt mt t tp tk rp ig0 =
      ⟨"[Error: Failed to tokenize]",
       [.setGenerating true, .setStopRequested false, .tokenizeCall,
        .setGenerating false], false, [], none⟩ := by
  unfold generate
  rw [if_neg (by simp [hload]), if_pos h]

/-- With the session loaded, tokenization nonempty, and the token count
over the `n_ctx - 4` bound, `generate` returns the prompt-too-long
error. -/
theorem generate_eq_too_long (eng : Engine) (ml cl : Bool)
    (d : GenerationParams) (prompt : String) (mt : Int) (t tp : ℚ)
    (tk : Int) (rp : ℚ) (ig0 : Bool) (hload : (ml && cl) = true)
    (h0 : eng.tokenizeRes prompt true ≠ [])
    (h1 : ((eng.tokenizeRes prompt true).length : Int) > eng.nCtx - 4) :
    generate eng ml cl d prompt mt t tp tk rp ig0 =
      ⟨"[Error: Prompt too long]",
       [.setGenerating true, .setStopRequested false, .tokenizeCall,
        .setGenerating false], false, [], none⟩ := by
  unfold generate
  rw [if_neg (by simp [hload]), if_neg h0, if_pos h1]

/-- With the session loaded, a usable prompt, and a failing prefill
decode, `generate` returns the decode error. -/
theorem generate_eq_prefill_fail (eng : Engine) (ml cl : Bool)
    (d : GenerationParams) (prompt : String) (mt : Int) (t tp : ℚ)
    (tk : Int) (rp : ℚ) (ig0 : Bool) (hload : (ml && cl) = true)
    (h0 : eng.tokenizeRes prompt true ≠ [])
    (h1 : ¬ ((eng.tokenizeRes prompt true).length : Int) > eng.nCtx - 4)
    (h2 : eng.decodeOk 0 = false) :
    generate eng ml cl d prompt mt t tp tk rp ig0 =
      ⟨"[Error: Decode failed]",
       [.setGenerating true, .setStopRequested false, .tokenizeCall,
        .kvCacheClear,
        .decode (buildPrefillBatch (eng.tokenizeRes prompt true)) false,
        .setGenerating false], false, [], none⟩ := by
  unfold generate
  rw [if_neg (by simp [hload]), if_neg h0, if_neg h1, if_pos h2]

/-- With the session loaded, a usable prompt, and a successful prefill,
`generate` runs the generation loop via `generateMain`. -/
theorem generate_eq_main (eng : Engine) (ml cl : Bool)
    (d : GenerationParams) (prompt : String) (mt : Int) (t tp : ℚ)
    (tk : Int) (rp : ℚ) (ig0 : Bool) (hload : (ml && cl) = true)
    (h0 : eng.tokenizeRes prompt true ≠ [])
    (h1 : ¬ ((eng.tokenizeRes prompt true).length : Int) > eng.nCtx - 4)
    (h2 : eng.decodeOk 0 = true) :
    generate eng ml cl d prompt mt t tp tk rp ig0 =
      generateMain eng d mt t tp tk rp (eng.tokenizeRes prompt true) := by
  unfold generate
  rw [if_neg (by simp [hload]), if_neg h0, if_neg h1, if_neg (by simp [h2])]

/-! ### C1: failed load leaves no handles -/

/-- C1: if `loadModel` reports failure — whether the weights failed to
load or context creation failed after a successful weight load — both
the model handle and the context handle are null on return: a failed
load never leaves a half-initialized session. -/
theorem load_failure_rolls_back (eng : LoadEngine) (st : SessionState)
    (nCtx nThreads : Int)
    (h : (loadModel eng st nCtx nThreads).1 = false) :
    (loadModel eng st nCtx nThreads).2.model = false ∧
    (loadModel eng st nCtx nThreads).2.ctx = false := by
  cases hl : eng.loadOk <;> cases hc : eng.ctxOk <;>
    simp [loadModel, hl, hc] at h ⊢

/-- Witness for C1 at a concrete input: the weights load but context
creation fails; `loadModel` reports failure and both handles are null. -/
theorem load_failure_rolls_back_w :
    (loadModel ⟨true, false⟩ ⟨false, false, stdDefaults⟩ 0 0).1 = false ∧
    ((loadModel ⟨true, false⟩ ⟨false, false, stdDefaults⟩ 0 0).2.model = false ∧
     (loadModel ⟨true, false⟩ ⟨false, false, stdDefaults⟩ 0 0).2.ctx = false) :=
  ⟨by decide,
   load_failure_rolls_back ⟨true, false⟩ ⟨false, false, stdDefaults⟩ 0 0 (by decide)⟩

/-! ### C7: prefill batch layout -/

/-- Length of the prefill batch construction. -/
theorem prefillGo_length (n : Nat) (ts : List Int) (i0 : Nat) :
    (prefillGo n i0 ts).length = ts.length := by
  induction ts generalizing i0 with
  | nil => rfl
  | cons t ts ih => simp [prefillGo, ih]

/-- The prefill batch has one entry per prompt token. -/
theorem buildPrefillBatch_length (tokens : List Int) :
    (buildPrefillBatch tokens).length = tokens.length :=
  prefillGo_length tokens.length tokens 0

/-- Entry `j` of `prefillGo n i0 ts` carries token `ts[j]`, position
`i0 + j`, and the scores flag exactly when `i0 + j = n - 1`. -/
theorem prefillGo_getElem (n : Nat) (ts : List Int) (i0 j : Nat)
    (h : j < (prefillGo n i0 ts).length) (h2 : j < ts.length) :
    (prefillGo n i0 ts)[j] =
      ⟨ts[j], ((i0 + j : Nat) : Int), decide (i0 + j = n - 1)⟩ := by
  induction ts generalizing i0 j with
  | nil => exact absurd h2 (Nat.not_lt_zero j)
  | cons t ts ih =>
    cases j with
    | zero => simp [prefillGo]
    | succ j =>
      have h4 : j < ts.length := Nat.lt_of_succ_lt_succ h2
      have h3 : j < (prefillGo n (i0 + 1) ts).length := by
        rw [prefillGo_length]; exact h4
      simp only [prefillGo, List.getElem_cons_succ]
      rw [ih (i0 + 1) j h3 h4]
      have e1 : i0 + 1 + j = i0 + (j + 1) := by omega
      rw [e1]

/-- C7: the prefill batch submits all `n` prompt tokens, entry `i`
holding token `i` of the prompt at position `i`, with the output-scores
flag true exactly at the final position `n - 1`. -/
theorem prefill_batch_layout (tokens : List Int) (i : Nat)
    (h1 : i < tokens.length)
    (h2 : i < (buildPrefillBatch tokens).length) :
    (buildPrefillBatch tokens).length = tokens.length ∧
    (buildPrefillBatch tokens)[i].token = tokens[i] ∧
    (buildPrefillBatch tokens)[i].pos = (i : Int) ∧
    ((buildPrefillBatch tokens)[i].logits = true ↔ i = tokens.length - 1) := by
  have hg : (buildPrefillBatch tokens)[i] =
      (⟨tokens[i], ((0 + i : Nat) : Int), decide (0 + i = tokens.length - 1)⟩ :
        BatchEntry) :=
    prefillGo_getElem tokens.length tokens 0 i h2 h1
  refine ⟨buildPrefillBatch_length tokens, ?_, ?_, ?_⟩ <;> rw [hg] <;> simp

/-- Witness for C7 at a concrete three-token prompt, inspecting the
final entry. -/
theorem prefill_batch_layout_w :
    (2 < ([10, 20, 30] : List Int).length ∧
     2 < (buildPrefillBatch [10, 20, 30]).length) ∧
    (buildPrefillBatch [10, 20, 30]).length = ([10, 20, 30] : List Int).length :=
  ⟨⟨by decide, by decide⟩,
   (prefill_batch_layout [10, 20, 30] 2 (by decide) (by decide)).1⟩

/-! ### C8: sentinel resolution of per-call parameters -/

/-- Counterexample to C8 as stated: `temperature = 0` is a non-positive
supplied value, yet the resolution keeps it (the source compares
`temperature >= 0`, not `> 0`), so it does not resolve to the configured
default `0.7`. -/
theorem resolveParams_sentinel_cex :
    (0 : ℚ) ≤ 0 ∧
    (resolveParams stdDefaults 5 0 (1/2) 7 2).temp = 0 ∧
    stdDefaults.temperature = 7/10 ∧ (0 : ℚ) ≠ 7/10 := by
  refine ⟨by norm_num, ?_, by rfl, by norm_num⟩
  simp [resolveParams, stdDefaults]

/-- C8 amended: for `max_tokens`, `top_p`, `top_k` and `repeat_penalty`
a positive supplied value is used as given and a non-positive one
resolves to the configured default; for `temperature` the supplied value
is used as given whenever it is non-negative (including zero), and only
a negative value resolves to the default. -/
theorem resolveParams_amended (d : GenerationParams) (mt : Int)
    (t tp : ℚ) (tk : Int) (rp : ℚ) :
    ((mt > 0 → (resolveParams d mt t tp tk rp).max_gen = mt) ∧
     (¬ mt > 0 → (resolveParams d mt t tp tk rp).max_gen = d.max_tokens)) ∧
    ((t ≥ 0 → (resolveParams d mt t tp tk rp).temp = t) ∧
     (¬ t ≥ 0 → (resolveParams d mt t tp tk rp).temp = d.temperature)) ∧
    ((tp > 0 → (resolveParams d mt t tp tk rp).top_p_val = tp) ∧
     (¬ tp > 0 → (resolveParams d mt t tp tk rp).top_p_val = d.top_p)) ∧
    ((tk > 0 → (resolveParams d mt t tp tk rp).top_k_val = tk) ∧
     (¬ tk > 0 → (resolveParams d mt t tp tk rp).top_k_val = d.top_k)) ∧
    ((rp > 0 → (resolveParams d mt t tp tk rp).rep_pen = rp) ∧
     (¬ rp > 0 → (resolveParams d mt t tp tk rp).rep_pen = d.repeat_penalty)) := by
  refine ⟨⟨?_, ?_⟩, ⟨?_, ?_⟩, ⟨?_, ?_⟩, ⟨?_, ?_⟩, ⟨?_, ?_⟩⟩ <;>
    intro h <;> simp [resolveParams, h]

/-- Witness for C8's amended statement: a non-negative temperature is
used as given. -/
theorem resolveParams_amended_w :
    (3/2 : ℚ) ≥ 0 ∧ (resolveParams stdDefaults 5 (3/2) (1/2) 7 2).temp = 3/2 :=
  ⟨by norm_num,
   (resolveParams_amended stdDefaults 5 (3/2) (1/2) 7 2).2.1.1 (by norm_num)⟩

/-! ### C2: in-progress / stop-requested flag discipline -/

/-- C2: on every call with both handles live, `generate`'s first two
events — before any engine call appears in the trace — set
`in_progress` to true and clear `stop_requested`, and on every exit
path (tokenization failure, prompt-too-long, prefill decode failure, or
a completed loop) `in_progress` is false when `generate` returns. -/
theorem generate_flag_discipline (eng : Engine) (d : GenerationParams)
    (prompt : String) (mt : Int) (t tp : ℚ) (tk : Int) (rp : ℚ)
    (ig0 : Bool) :
    (generate eng true true d prompt mt t tp tk rp ig0).isGenerating = false ∧
    (generate eng true true d prompt mt t tp tk rp ig0).trace.take 2 =
      [.setGenerating true, .setStopRequested false] := by
  by_cases h0 : eng.tokenizeRes prompt true = []
  · rw [generate_eq_tok_fail eng true true d prompt mt t tp tk rp ig0 rfl h0]
    exact ⟨rfl, rfl⟩
  · by_cases h1 : ((eng.tokenizeRes prompt true).length : Int) > eng.nCtx - 4
    · rw [generate_eq_too_long eng true true d prompt mt t tp tk rp ig0 rfl h0 h1]
      exact ⟨rfl, rfl⟩
    · cases h2 : eng.decodeOk 0 with
      | false =>
        rw [generate_eq_prefill_fail eng true true d prompt mt t tp tk rp ig0 rfl h0 h1 h2]
        exact ⟨rfl, rfl⟩
      | true =>
        rw [generate_eq_main eng true true d prompt mt t tp tk rp ig0 rfl h0 h1 h2]
        exact ⟨rfl, rfl⟩

/-! ### C4: repeat_penalty is resolved but inert -/

/-- C4: two `generate` calls identical except for the `repeatPenalty`
argument produce identical results — returned text, event trace, flags
and generated tokens.  The resolution at line 299 computes `rep_pen`,
but no later scoring step consumes it. -/
theorem generate_ignores_repeat_penalty (eng : Engine) (ml cl : Bool)
    (d : GenerationParams) (prompt : String) (mt : Int) (t tp : ℚ)
    (tk : Int) (rp1 rp2 : ℚ) (ig0 : Bool) :
    generate eng ml cl d prompt mt t tp tk rp1 ig0 =
    generate eng ml cl d prompt mt t tp tk rp2 ig0 := by
  unfold generate
  split_ifs <;> rfl

/-! ### C10: validation failures leave the context untouched -/

/-- C10: on each validation-failure path — model/context not loaded,
empty tokenization, or prompt over the length bound — `generate`
performs no KV-cache clear and submits no batch: every event in its
trace leaves the decoding context untouched. -/
theorem validation_failure_preserves_context (eng : Engine) (ml cl : Bool)
    (d : GenerationParams) (prompt : String) (mt : Int) (t tp : ℚ)
    (tk : Int) (rp : ℚ) (ig0 : Bool)
    (h : ml = false ∨ cl = false ∨ eng.tokenizeRes prompt true = [] ∨
         ((eng.tokenizeRes prompt true).length : Int) > eng.nCtx - 4) :
    ∀ e ∈ (generate eng ml cl d prompt mt t tp tk rp ig0).trace,
      touchesContext e = false := by
  intro e he
  cases hml : ml with
  | false =>
    subst hml
    rw [generate_eq_not_loaded eng false cl d prompt mt t tp tk rp ig0 (by simp)] at he
    simp at he
  | true =>
    cases hcl : cl with
    | false =>
      subst hml; subst hcl
      rw [generate_eq_not_loaded eng true false d prompt mt t tp tk rp ig0 (by simp)] at he
      simp at he
    | true =>
      subst hml; subst hcl
      rcases h with h | h | h | h
      · exact absurd h (by simp)
      · exact absurd h (by simp)
      · rw [generate_eq_tok_fail eng true true d prompt mt t tp tk rp ig0 rfl h] at he
        simp at he
        rcases he with rfl | rfl | rfl | rfl <;> rfl
      · by_cases h0 : eng.tokenizeRes prompt true = []
        · rw [generate_eq_tok_fail eng true true d prompt mt t tp tk rp ig0 rfl h0] at he
          simp at he
          rcases he with rfl | rfl | rfl | rfl <;> rfl
        · rw [generate_eq_too_long eng true true d prompt mt t tp tk rp ig0 rfl h0 h] at he
          simp at he
          rcases he with rfl | rfl | rfl | rfl <;> rfl

/-- An engine whose tokenizer yields the empty sequence, for the C10
witness. -/
def emptyTokEngine : Engine :=
  ⟨fun _ _ => [], 2048, 32, 2, fun _ => true, fun _ => 5, fun _ => false,
   fun _ => "a"⟩

/-- Witness for C10 at a concrete input: empty tokenization, and every
event of the resulting trace leaves the context untouched. -/
theorem validation_failure_preserves_context_w :
    emptyTokEngine.tokenizeRes "p" true = [] ∧
    ∀ e ∈ (generate emptyTokEngine true true stdDefaults "p" 5 1 1 5 1
            false).trace, touchesContext e = false :=
  ⟨rfl,
   validation_failure_preserves_context emptyTokEngine true true stdDefaults
     "p" 5 1 1 5 1 false (Or.inr (Or.inr (Or.inl rfl)))⟩

/-! ### C3: fixed sampling pipeline order -/

/-- In every iteration the generation loop emits its sampling events as
the exact four-stage sequence top-k, top-p, temperature, draw. -/
theorem genLoop_pipeline (eng : Engine) (k : Int) (p t : ℚ) (fuel : Nat) :
    ∀ (i : Nat) (nCur : Int) (acc : List Int),
      PipelineOrdered k p t
        (((genLoop eng k p t fuel i nCur acc).trace).filter isSamplingEvent) := by
  induction fuel with
  | zero => intro i nCur acc; exact .nil
  | succ fuel ih =>
    intro i nCur acc
    by_cases hs : eng.stopSeen i = true
    · simp [genLoop, hs]
      exact .nil
    · by_cases hd : eng.draw i = eng.eosToken
      · simp [genLoop, hs, hd, isSamplingEvent]
        exact .cons _ _ .nil
      · cases hk : eng.decodeOk (i + 1) with
        | true =>
          simp [genLoop, hs, hd, hk, isSamplingEvent, List.filter_append]
          exact .cons _ _ (ih _ _ _)
        | false =>
          simp [genLoop, hs, hd, hk, isSamplingEvent, List.filter_append]
          exact .cons _ _ .nil

/-- C3: over the whole of `generate`'s event trace, the sampling events
form complete iterations each applying, in order: the top-k filter, the
top-p filter, temperature scaling, and the stochastic draw — with the
effective `top_k`, `top_p` and `temperature` values of the call. -/
theorem sampling_pipeline_order (eng : Engine) (ml cl : Bool)
    (d : GenerationParams) (prompt : String) (mt : Int) (t tp : ℚ)
    (tk : Int) (rp : ℚ) (ig0 : Bool) :
    PipelineOrdered (resolveParams d mt t tp tk rp).top_k_val
      (resolveParams d mt t tp tk rp).top_p_val
      (resolveParams d mt t tp tk rp).temp
      (((generate eng ml cl d prompt mt t tp tk rp ig0).trace).filter
        isSamplingEvent) := by
  by_cases hload : (ml && cl) = true
  · by_cases h0 : eng.tokenizeRes prompt true = []
    · rw [generate_eq_tok_fail eng ml cl d prompt mt t tp tk rp ig0 hload h0]
      exact .nil
    · by_cases h1 : ((eng.tokenizeRes prompt true).length : Int) > eng.nCtx - 4
      · rw [generate_eq_too_long eng ml cl d prompt mt t tp tk rp ig0 hload h0 h1]
        exact .nil
      · cases h2 : eng.decodeOk 0 with
        | false =>
          rw [generate_eq_prefill_fail eng ml cl d prompt mt t tp tk rp ig0 hload h0 h1 h2]
          exact .nil
        | true =>
          rw [generate_eq_main eng ml cl d prompt mt t tp tk rp ig0 hload h0 h1 h2]
          simp [generateMain, isSamplingEvent, List.filter_append]
          exact genLoop_pipeline eng _ _ _ _ _ _ _
  · have hf : (ml && cl) = false := by revert hload; cases (ml && cl) <;> simp
    rw [generate_eq_not_loaded eng ml cl d prompt mt t tp tk rp ig0 hf]
    exact .nil

/-! ### C5: prompt-too-long handling -/

/-- An engine with a three-token context whose tokenizer yields the
empty sequence, for the C5 counterexample. -/
def tinyCtxEngine : Engine :=
  ⟨fun _ _ => [], 3, 32, 2, fun _ => true, fun _ => 5, fun _ => false,
   fun _ => "a"⟩

/-- Counterexample to C5 as stated: with context size 3 and a prompt
tokenizing to the empty sequence, the token count 0 exceeds
`n_ctx - 4 = -1`, yet `generate` returns the tokenize error — the
empty-tokenization check at line 258 fires before the length check at
line 264 — not the prompt-too-long error. -/
theorem prompt_too_long_shadowed_cex :
    ((tinyCtxEngine.tokenizeRes "p" true).length : Int) >
      tinyCtxEngine.nCtx - 4 ∧
    (generate tinyCtxEngine true true stdDefaults "p" 5 1 1 5 1 false).text ≠
      "[Error: Prompt too long]" := by
  constructor
  · decide
  · rw [generate_eq_tok_fail tinyCtxEngine true true stdDefaults "p" 5 1 1 5 1
      false rfl rfl]
    decide

/-- C5 amended: for every prompt whose tokenization is nonempty and
whose token count exceeds the context size minus 4, `generate` returns
the prompt-too-long error and never submits a decode to the engine. -/
theorem prompt_too_long_rejected (eng : Engine) (d : GenerationParams)
    (prompt : String) (mt : Int) (t tp : ℚ) (tk : Int) (rp : ℚ) (ig0 : Bool)
    (h0 : eng.tokenizeRes prompt true ≠ [])
    (h1 : ((eng.tokenizeRes prompt true).length : Int) > eng.nCtx - 4) :
    (generate eng true true d prompt mt t tp tk rp ig0).text =
      "[Error: Prompt too long]" ∧
    ∀ e ∈ (generate eng true true d prompt mt t tp tk rp ig0).trace,
      isDecodeEvent e = false := by
  rw [generate_eq_too_long eng true true d prompt mt t tp tk rp ig0 rfl h0 h1]
  refine ⟨rfl, ?_⟩
  intro e he
  simp at he
  rcases he with rfl | rfl | rfl | rfl <;> rfl

/-- An engine tokenizing every text to seven tokens against a ten-token
context, for the C5 witness. -/
def sevenTokEngine : Engine :=
  ⟨fun _ _ => [1, 2, 3, 4, 5, 6, 7], 10, 32, 2, fun _ => true, fun _ => 5,
   fun _ => false, fun _ => "a"⟩

/-- Witness for C5's amended statement: seven tokens against
`n_ctx - 4 = 6` yield the prompt-too-long error. -/
theorem prompt_too_long_rejected_w :
    (sevenTokEngine.tokenizeRes "p" true ≠ [] ∧
     ((sevenTokEngine.tokenizeRes "p" true).length : Int) >
       sevenTokEngine.nCtx - 4) ∧
    (generate sevenTokEngine true true stdDefaults "p" 5 1 1 5 1 false).text =
      "[Error: Prompt too long]" :=
  ⟨⟨by decide, by decide⟩,
   (prompt_too_long_rejected sevenTokEngine stdDefaults "p" 5 1 1 5 1 false
     (by decide) (by decide)).1⟩

/-! ### C6: decode failure returns the partial result -/

/-- If the generation loop stops because a decode step failed, the
`generated` vector it returns is nonempty: the token whose decode
failed was pushed before the decode was attempted. -/
theorem genLoop_decodeFail_ne_nil (eng : Engine) (k : Int) (p t : ℚ)
    (fuel : Nat) :
    ∀ (i : Nat) (nCur : Int) (acc : List Int),
      (genLoop eng k p t fuel i nCur acc).reason = .decodeFail →
      (genLoop eng k p t fuel i nCur acc).generated ≠ [] := by
  induction fuel with
  | zero => intro i nCur acc h; exact absurd h (by simp [genLoop])
  | succ fuel ih =>
    intro i nCur acc h
    by_cases hs : eng.stopSeen i = true
    · simp [genLoop, hs] at h
    · by_cases hd : eng.draw i = eng.eosToken
      · simp [genLoop, hs, hd] at h
      · cases hk : eng.decodeOk (i + 1) with
        | true =>
          have h2 : (genLoop eng k p t fuel (i + 1) (nCur + 1)
              (acc ++ [eng.draw i])).reason = .decodeFail := by
            simpa [genLoop, hs, hd, hk] using h
          have h3 := ih (i + 1) (nCur + 1) (acc ++ [eng.draw i]) h2
          simpa [genLoop, hs, hd, hk] using h3
        | false =>
          simp [genLoop, hs, hd, hk]

/-- C6: when `generate` exits its loop because a single-token decode
step failed, the returned text is the detokenization of the tokens
produced so far — a nonempty sequence, not discarded and not an error
string built from scratch. -/
theorem decode_fail_returns_partial (eng : Engine) (d : GenerationParams)
    (prompt : String) (mt : Int) (t tp : ℚ) (tk : Int) (rp : ℚ) (ig0 : Bool)
    (h : (generate eng true true d prompt mt t tp tk rp ig0).reason =
      some .decodeFail) :
    (generate eng true true d prompt mt t tp tk rp ig0).text =
      detokenize eng (generate eng true true d prompt mt t tp tk rp ig0).generated ∧
    (generate eng true true d prompt mt t tp tk rp ig0).generated ≠ [] := by
  by_cases h0 : eng.tokenizeRes prompt true = []
  · rw [generate_eq_tok_fail eng true true d prompt mt t tp tk rp ig0 rfl h0] at h
    exact absurd h (by simp)
  by_cases h1 : ((eng.tokenizeRes prompt true).length : Int) > eng.nCtx - 4
  · rw [generate_eq_too_long eng true true d prompt mt t tp tk rp ig0 rfl h0 h1] at h
    exact absurd h (by simp)
  cases h2 : eng.decodeOk 0 with
  | false =>
    rw [generate_eq_prefill_fail eng true true d prompt mt t tp tk rp ig0 rfl h0 h1 h2] at h
    exact absurd h (by simp)
  | true =>
    rw [generate_eq_main eng true true d prompt mt t tp tk rp ig0 rfl h0 h1 h2] at h ⊢
    refine ⟨rfl, ?_⟩
    have h3 : (genLoop eng (resolveParams d mt t tp tk rp).top_k_val
        (resolveParams d mt t tp tk rp).top_p_val
        (resolveParams d mt t tp tk rp).temp
        (resolveParams d mt t tp tk rp).max_gen.toNat 0
        ((eng.tokenizeRes prompt true).length : Int) []).reason = .decodeFail := by
      simpa [generateMain] using h
    have h4 := genLoop_decodeFail_ne_nil eng _ _ _ _ _ _ _ h3
    simpa [generateMain] using h4

/-- An engine whose prefill decode succeeds but whose first single-token
decode fails, for the C6 witness. -/
def stepFailEngine : Engine :=
  ⟨fun _ _ => [1], 2048, 32, 2, fun k => decide (k = 0), fun _ => 5,
   fun _ => false, fun _ => "a"⟩

/-- Witness for C6 at a concrete input: the first step decode fails and
the sampled token is still returned, detokenized. -/
theorem decode_fail_returns_partial_w :
    (generate stepFailEngine true true stdDefaults "p" 3 1 1 5 1 false).reason =
      some .decodeFail ∧
    ((generate stepFailEngine true true stdDefaults "p" 3 1 1 5 1 false).text =
       detokenize stepFailEngine
         (generate stepFailEngine true true stdDefaults "p" 3 1 1 5 1 false).generated ∧
     (generate stepFailEngine true true stdDefaults "p" 3 1 1 5 1 false).generated ≠ []) :=
  ⟨by decide,
   decode_fail_returns_partial stepFailEngine stdDefaults "p" 3 1 1 5 1 false
     (by decide)⟩

/-! ### C9: stop requested before the first token -/

/-- If the stop flag reads true at the loop's entry iteration, the loop
returns its accumulator unchanged. -/
theorem genLoop_stop_at_entry (eng : Engine) (k : Int) (p t : ℚ)
    (fuel i : Nat) (nCur : Int) (acc : List Int)
    (h : eng.stopSeen i = true) :
    (genLoop eng k p t fuel i nCur acc).generated = acc := by
  cases fuel with
  | zero => rfl
  | succ fuel => simp [genLoop, h]

/-- C9: if the stop flag is observed set at the first loop iteration —
before any token is produced — the generated sequence is empty and
`generate` returns the detokenization of a zero-length sequence. -/
theorem stop_request_before_first_token (eng : Engine)
    (d : GenerationParams) (prompt : String) (mt : Int) (t tp : ℚ)
    (tk : Int) (rp : ℚ) (ig0 : Bool)
    (h0 : eng.tokenizeRes prompt true ≠ [])
    (h1 : ¬ ((eng.tokenizeRes prompt true).length : Int) > eng.nCtx - 4)
    (h2 : eng.decodeOk 0 = true)
    (h3 : eng.stopSeen 0 = true) :
    (generate eng true true d prompt mt t tp tk rp ig0).generated = [] ∧
    (generate eng true true d prompt mt t tp tk rp ig0).text =
      detokenize eng [] := by
  rw [generate_eq_main eng true true d prompt mt t tp tk rp ig0 rfl h0 h1 h2]
  have hg := genLoop_stop_at_entry eng (resolveParams d mt t tp tk rp).top_k_val
    (resolveParams d mt t tp tk rp).top_p_val (resolveParams d mt t tp tk rp).temp
    (resolveParams d mt t tp tk rp).max_gen.toNat 0
    ((eng.tokenizeRes prompt true).length : Int) [] h3
  refine ⟨?_, ?_⟩
  · simpa [generateMain] using hg
  · simp only [generateMain]
    rw [hg]

/-- An engine whose stop flag is already set when the loop first reads
it, for the C9 witness. -/
def stopAtOnceEngine : Engine :=
  ⟨fun _ _ => [1], 2048, 32, 2, fun _ => true, fun _ => 5, fun _ => true,
   fun _ => "a"⟩

/-- Witness for C9 at a concrete input: stop observed at iteration 0,
zero tokens generated, empty detokenization returned. -/
theorem stop_request_before_first_token_w :
    stopAtOnceEngine.stopSeen 0 = true ∧
    ((generate stopAtOnceEngine true true stdDefaults "p" 3 1 1 5 1 false).generated = [] ∧
     (generate stopAtOnceEngine true true stdDefaults "p" 3 1 1 5 1 false).text =
       detokenize stopAtOnceEngine []) :=
  ⟨rfl,
   stop_request_before_first_token stopAtOnceEngine stdDefaults "p" 3 1 1 5 1
     false (by decide) (by decide) rfl rfl⟩

end NanoAi
